import Mathlib

/-!
# MuseLink backend — shallow embedding of the credit-gated unlock protocol

This file embeds, in Lean 4, the persistent data model and the route
handlers of the MuseLink backend that the verified claims are about.
The repository contains several variants of the same Express/Postgres
backend; the handlers below are translated statement-by-statement from
their sources:

* `desbloquear0` — the `POST /solicitudes/desbloquear` handler of the
  CommonJS variant (src/unnamed/part_000, lines 309–404);
* `desbloquear1` — the `POST /solicitudes/desbloquear` handler of the
  ES-module variant (src/unnamed/part_001, lines 241–306);
* `desbloquear2` — the `POST /solicitudes/desbloquear` handler of the
  bare variant (src/unnamed/part_002, lines 192–207);
* `register0` / `register1` — the `POST /auth/register` handlers of
  part_000 and part_001;
* `login0` / `login2` — the `POST /auth/login` handlers of part_000 and
  part_002.

Database tables are modelled as lists of rows; a SQL `SELECT ... WHERE
id = $1` with `rows[0]` is `List.find?`, an `INSERT` is an append, an
`UPDATE ... WHERE id = $1` is a `List.map` that rewrites the matching
rows.  A transaction that ends in `ROLLBACK` returns the initial
database unchanged; one that ends in `COMMIT` returns the mutated
database.  Timestamp columns (`fecha`, `fecha_registro`,
`fecha_creacion`, `fecha_evento`) are not modelled: no handler ever
reads them back.
-/

/-- A row of the `usuarios` table: `id, nombre, email, password
(bcrypt hash), rol_id, credits`. -/
structure Usuario where
  id : Nat
  nombre : String
  email : String
  password : String
  rol_id : Nat
  credits : Int
deriving Repr, DecidableEq

/-- A row of the `solicitudes` table: `id, cliente_id, titulo,
descripcion, tipo_musica, cantidad_ofertas (the quota), estado
('abierta' or 'cerrada')`. -/
structure Solicitud where
  id : Nat
  cliente_id : Nat
  titulo : String
  descripcion : String
  tipo_musica : String
  cantidad_ofertas : Int
  estado : String
deriving Repr, DecidableEq

/-- A row of the `desbloqueos` table (part_000/part_001) or of the
`desbloqueos_solicitudes` table (part_002): a Grant record for one
(artist, resource) pair.  The `fecha` timestamp column is not
modelled. -/
structure Desbloqueo where
  solicitud_id : Nat
  artista_id : Nat
deriving Repr, DecidableEq

/-- A row of the `roles` table. -/
structure Rol where
  id : Nat
  nombre : String
deriving Repr, DecidableEq

/-- A row of the `clientes` table of part_001 (`id, telefono,
direccion`), written by its register handler. -/
structure Cliente where
  id : Nat
  telefono : String
  direccion : String
deriving Repr, DecidableEq

/-- The persistent state: the durable tables the handlers read and
write.  `desbloqueos` is the grant table of part_000/part_001;
`desbloqueos_solicitudes` is the separate grant table used by
part_002. -/
structure DB where
  usuarios : List Usuario
  solicitudes : List Solicitud
  desbloqueos : List Desbloqueo
  desbloqueos_solicitudes : List Desbloqueo
  clientes : List Cliente
deriving Repr, DecidableEq

/-- The contact object built by part_000's unlock handler from the
resource owner's row: `{ nombre, email, telefono: null }` (the source
hard-codes `telefono: null`). -/
structure Contacto where
  nombre : String
  email : String
  telefono : Option String
deriving Repr, DecidableEq

/-- HTTP outcome of an unlock call:
`ok` carries the JSON body `{ ok: true, nuevosCreditos, contacto }`
(part_001 sends no `contacto` key, modelled as `none`);
`badRequest`/`notFound`/`serverError` carry the `error` message of the
400/404/500 response. -/
inductive Outcome where
  | ok (nuevosCreditos : Int) (contacto : Option Contacto)
  | badRequest (msg : String)
  | notFound (msg : String)
  | serverError (msg : String)
deriving Repr, DecidableEq

/-- Returns `true` exactly on the 200 response. -/
def Outcome.isOk : Outcome → Bool
  | .ok _ _ => true
  | _ => false

/-- Query `SELECT ... FROM usuarios WHERE id = $1`, first row. -/
def findUsuario (l : List Usuario) (a : Nat) : Option Usuario :=
  l.find? (fun u => u.id == a)

/-- Query `SELECT ... FROM solicitudes WHERE id = $1`, first row. -/
def findSolicitud (l : List Solicitud) (s : Nat) : Option Solicitud :=
  l.find? (fun q => q.id == s)

/-- Query `SELECT ... FROM desbloqueos WHERE artista_id = $1 AND
solicitud_id = $2` returned at least one row. -/
def granted (l : List Desbloqueo) (a s : Nat) : Bool :=
  l.any (fun d => d.artista_id == a && d.solicitud_id == s)

/-- Number of grant rows for a resource:
`SELECT COUNT(*) FROM desbloqueos WHERE solicitud_id = $1`. -/
def countDesbloqueos (l : List Desbloqueo) (s : Nat) : Nat :=
  (l.filter (fun d => d.solicitud_id == s)).length

/-- Statement `UPDATE usuarios SET credits = credits - 1 WHERE id = $1`
(part_000, step 4 of its unlock handler). -/
def debitOne (l : List Usuario) (a : Nat) : List Usuario :=
  l.map (fun u => if u.id == a then { u with credits := u.credits - 1 } else u)

/-- Statement `UPDATE usuarios SET credits = $1 WHERE id = $2` (part_001, step 5
of its unlock handler, with the new value computed in JS). -/
def setCredits (l : List Usuario) (a : Nat) (c : Int) : List Usuario :=
  l.map (fun u => if u.id == a then { u with credits := c } else u)

/-- Part_000's step 5: `SELECT u.nombre, u.email FROM solicitudes s
JOIN usuarios u ON u.id = s.cliente_id WHERE s.id = $1`, packaged as
the `contacto` object, or `null` when the query returns no row. -/
def contactoDe (db : DB) (s : Nat) : Option Contacto :=
  match findSolicitud db.solicitudes s with
  | none => none
  | some q =>
    match findUsuario db.usuarios q.cliente_id with
    | none => none
    | some v => some { nombre := v.nombre, email := v.email, telefono := none }

/-- Handler `POST /solicitudes/desbloquear` of src/unnamed/part_000 (lines
309–404).  Inputs are the request-body fields; `none` models a missing
field and the `a == 0` test models JavaScript's falsiness check
`!artista_id`.  The handler: rejects a duplicate grant, rejects a
missing artist (404), rejects `credits <= 0`, then inserts the grant
row, debits one credit, looks up the owner's contact, commits, and
responds with the post-debit balance (`RETURNING credits`) and the
contact.  Every error path ends in `ROLLBACK`, i.e. returns the input
database.  It never reads the `solicitudes` row before granting: no
existence, `estado` or quota check. -/
def desbloquear0 (db : DB) (artista_id solicitud_id : Option Nat) : DB × Outcome :=
  match artista_id, solicitud_id with
  | some a, some s =>
    if a == 0 || s == 0 then
      (db, .badRequest ("Faltan artista_id o solicitud_id"))
    else if granted db.desbloqueos a s then
      (db, .badRequest ("Ya la desbloqueaste"))
    else
      match findUsuario db.usuarios a with
      | none => (db, .notFound ("Artista no encontrado"))
      | some u =>
        if u.credits ≤ 0 then
          (db, .badRequest ("No tienes creditos suficientes"))
        else
          let db2 : DB :=
            { db with
              desbloqueos := db.desbloqueos ++ [{ solicitud_id := s, artista_id := a }],
              usuarios := debitOne db.usuarios a }
          (db2, .ok (u.credits - 1) (contactoDe db2 s))
  | _, _ => (db, .badRequest ("Faltan artista_id o solicitud_id"))

/-- Handler `POST /solicitudes/desbloquear` of src/unnamed/part_001 (lines
241–306).  The handler: fetches the solicitud (404 if absent), rejects
a duplicate grant, reads the artist's row and accesses
`art.rows[0].credits` WITHOUT checking that a row exists — when the
artist is absent this throws a TypeError that the catch block turns
into `ROLLBACK` plus the generic 500 `"Error al desbloquear"` —
rejects `credits <= 0`, inserts the grant, stores the new balance
computed in JS, commits, and responds `{ ok, nuevosCreditos }` with no
contact.  It never checks `estado` or the quota. -/
def desbloquear1 (db : DB) (artista_id solicitud_id : Nat) : DB × Outcome :=
  match findSolicitud db.solicitudes solicitud_id with
  | none => (db, .notFound ("Solicitud no encontrada"))
  | some _ =>
    if granted db.desbloqueos artista_id solicitud_id then
      (db, .badRequest ("Ya la desbloqueaste"))
    else
      match findUsuario db.usuarios artista_id with
      | none => (db, .serverError ("Error al desbloquear"))
      | some u =>
        if u.credits ≤ 0 then
          (db, .badRequest ("Sin creditos suficientes"))
        else
          let newCredits := u.credits - 1
          ({ db with
             desbloqueos :=
               db.desbloqueos ++ [{ solicitud_id := solicitud_id, artista_id := artista_id }],
             usuarios := setCredits db.usuarios artista_id newCredits },
           .ok newCredits none)

/-- Response of part_002's unlock handler: it only ever sends
`{ ok: true }` (store failures aside). -/
inductive Outcome2 where
  | ok
deriving Repr, DecidableEq

/-- Handler `POST /solicitudes/desbloquear` of src/unnamed/part_002 (lines
192–207): a single unconditional `INSERT INTO desbloqueos_solicitudes`
outside any transaction — no duplicate-grant check, no credit check,
no debit, no quota or estado check — followed by `{ ok: true }`. -/
def desbloquear2 (db : DB) (solicitud_id artista_id : Nat) : DB × Outcome2 :=
  ({ db with
     desbloqueos_solicitudes :=
       db.desbloqueos_solicitudes ++ [{ solicitud_id := solicitud_id, artista_id := artista_id }] },
   .ok)

/-- Modelled from the spec: password hashing (`bcrypt.hash(password,
10)`) is owned by the out-of-scope identity subsystem (the `bcryptjs`
library, not under src/); it is abstracted as an injective tagging of
the plaintext. -/
def bcryptHash (password : String) : String :=
  "bcrypt." ++ password

/-- Modelled from the spec: `bcrypt.compare(password, hash)` of the
out-of-scope identity subsystem, matched against `bcryptHash`. -/
def bcryptCompare (password hash : String) : Bool :=
  hash == bcryptHash password

/-- Modelled from the spec: token issuance (`jwt.sign({ userId, roleId },
JWT_SECRET, ...)`) is owned by the out-of-scope identity subsystem (the
`jsonwebtoken` library, not under src/); only the signed-over fields are
kept. -/
def jwtSign (userId roleId : Nat) : String :=
  "jwt." ++ toString userId ++ "." ++ toString roleId

/-- Modelled from the spec: the `SERIAL` primary key the database
assigns to an inserted `usuarios` row (the table schema is not under
src/): one more than the largest id in the table. -/
def nextUserId (l : List Usuario) : Nat :=
  l.foldr (fun u m => max u.id m) 0 + 1

/-- The `user` object a JS auth handler holds in memory and sends back
as JSON: a projection of a `usuarios` row.  `password = some h` means
the object carries a `password` key (as after `SELECT` of that column);
`none` means the key is absent (never selected, or removed by
`delete user.password`).  Likewise `credits`. -/
structure JsUser where
  id : Nat
  nombre : String
  email : String
  rol_id : Nat
  credits : Option Int
  password : Option String
deriving Repr, DecidableEq

/-- HTTP outcome of an auth call: `okAuth` carries the JSON body
`{ user, token }`; the others carry the `error` message of the
400/409/401 response. -/
inductive AuthResult where
  | okAuth (user : JsUser) (token : String)
  | badRequest (msg : String)
  | conflict (msg : String)
  | unauthorized (msg : String)
deriving Repr, DecidableEq

/-- SQL `LOWER`, modelled character-wise. -/
def sqlLower (s : String) : String :=
  String.mk (s.data.map Char.toLower)

/-- Query `SELECT id FROM roles WHERE LOWER(nombre) = LOWER($1)`, first row
(the shared `getRoleIdByName` helper). -/
def getRoleIdByName (roles : List Rol) (roleName : String) : Option Nat :=
  (roles.find? (fun r => sqlLower r.nombre == sqlLower roleName)).map Rol.id

/-- Handler `POST /auth/register` of src/unnamed/part_000 (lines 57–111).
Rejects a missing/empty email or password (JS falsiness), rejects an
already-registered email (409), resolves the role id (falling back to
3 when `getRoleIdByName` returns nothing falsy-ish), computes
`initialCredits` — 3 when the requested role is exactly `"artista"`,
else 0 — inserts the row, and responds with the `RETURNING id, nombre,
email, rol_id, credits` projection (no password) plus a token. -/
def register0 (db : DB) (roles : List Rol)
    (nombre email password : String) (role : Option String) : DB × AuthResult :=
  if email == "" || password == "" then
    (db, .badRequest ("Email y password son obligatorios"))
  else if db.usuarios.any (fun u => u.email == email) then
    (db, .conflict ("El correo ya esta registrado"))
  else
    let hash := bcryptHash password
    let desiredRole := match role with
      | none => "cliente"
      | some r => if r == ("") then ("cliente") else r
    let roleId := match getRoleIdByName roles desiredRole with
      | none => 3
      | some i => if i == 0 then 3 else i
    let initialCredits : Int := if desiredRole == "artista" then 3 else 0
    let newId := nextUserId db.usuarios
    let row : Usuario :=
      { id := newId, nombre := nombre, email := email, password := hash,
        rol_id := roleId, credits := initialCredits }
    let user : JsUser :=
      { id := newId, nombre := nombre, email := email, rol_id := roleId,
        credits := some initialCredits, password := none }
    ({ db with usuarios := db.usuarios ++ [row] },
     .okAuth user (jwtSign newId roleId))

/-- Handler `POST /auth/register` of src/unnamed/part_001 (lines 77–133).
Same shape as `register0` with role-id fallback 1; additionally, when
the requested role is `"cliente"` and a (truthy) `telefono` was sent,
upserts a `clientes` row (`ON CONFLICT (id) DO UPDATE SET telefono`).
`initialCredits` is again 3 exactly for role `"artista"`, else 0; the
response user is the `RETURNING id, nombre, email, rol_id, credits`
projection (no password). -/
def register1 (db : DB) (roles : List Rol)
    (nombre email password : String) (role : Option String)
    (telefono : Option String) : DB × AuthResult :=
  if email == "" || password == "" then
    (db, .badRequest ("Email y password requeridos"))
  else if db.usuarios.any (fun u => u.email == email) then
    (db, .conflict ("Correo ya registrado"))
  else
    let hash := bcryptHash password
    let roleName := match role with
      | none => "cliente"
      | some r => if r == ("") then ("cliente") else r
    let roleId := match getRoleIdByName roles roleName with
      | none => 1
      | some i => if i == 0 then 1 else i
    let initialCredits : Int := if roleName == "artista" then 3 else 0
    let newId := nextUserId db.usuarios
    let row : Usuario :=
      { id := newId, nombre := nombre, email := email, password := hash,
        rol_id := roleId, credits := initialCredits }
    let user : JsUser :=
      { id := newId, nombre := nombre, email := email, rol_id := roleId,
        credits := some initialCredits, password := none }
    let db1 : DB := { db with usuarios := db.usuarios ++ [row] }
    let db2 : DB :=
      match telefono with
      | some t =>
        if roleName == "cliente" && !(t == "") then
          if db1.clientes.any (fun c => c.id == newId) then
            { db1 with clientes :=
                db1.clientes.map (fun c => if c.id == newId then { c with telefono := t } else c) }
          else
            { db1 with clientes := db1.clientes ++ [{ id := newId, telefono := t, direccion := "" }] }
        else db1
      | none => db1
    (db2, .okAuth user (jwtSign newId roleId))

/-- Handler `POST /auth/login` of src/unnamed/part_000 (lines 118–151): selects
`id, nombre, email, password, rol_id, credits` by email, 401 when no
row or the bcrypt comparison fails, then `delete user.password` and
respond `{ user, token }`. -/
def login0 (db : DB) (email password : String) : AuthResult :=
  match db.usuarios.find? (fun u => u.email == email) with
  | none => .unauthorized ("Credenciales invalidas")
  | some u =>
    if bcryptCompare password u.password then
      let user : JsUser :=
        { id := u.id, nombre := u.nombre, email := u.email, rol_id := u.rol_id,
          credits := some u.credits, password := some u.password }
      let user := { user with password := none }
      .okAuth user (jwtSign u.id u.rol_id)
    else .unauthorized ("Credenciales invalidas")

/-- Handler `POST /auth/login` of src/unnamed/part_002 (lines 103–134): selects
`*` by email (so the in-memory object carries every column, password
included), 401 when no row or the comparison fails, then
`delete user.password` and respond `{ user, token }`. -/
def login2 (db : DB) (email password : String) : AuthResult :=
  match db.usuarios.find? (fun u => u.email == email) with
  | none => .unauthorized ("Credenciales invalidas")
  | some u =>
    if bcryptCompare password u.password then
      let user : JsUser :=
        { id := u.id, nombre := u.nombre, email := u.email, rol_id := u.rol_id,
          credits := some u.credits, password := some u.password }
      let user := { user with password := none }
      .okAuth user (jwtSign u.id u.rol_id)
    else .unauthorized ("Credenciales invalidas")

/-- Sample database: one open resource (id 1, quota
`cantidad_ofertas = 1`) owned by client 5, two artists (ids 10 and 11)
holding one credit each, and no grants yet. -/
def dbSample : DB :=
  { usuarios :=
      [ { id := 5, nombre := "Cliente", email := "cliente@x.cl",
          password := "bcrypt.c", rol_id := 3, credits := 0 },
        { id := 10, nombre := "ArtistaUno", email := "a1@x.cl",
          password := "bcrypt.a1", rol_id := 2, credits := 1 },
        { id := 11, nombre := "ArtistaDos", email := "a2@x.cl",
          password := "bcrypt.a2", rol_id := 2, credits := 1 } ],
    solicitudes :=
      [ { id := 1, cliente_id := 5, titulo := "Boda", descripcion := "Musica para boda",
          tipo_musica := "jazz", cantidad_ofertas := 1, estado := "abierta" } ],
    desbloqueos := [],
    desbloqueos_solicitudes := [],
    clientes := [] }

/-- Variant of `dbSample` whose resource is already in the closed
state (`estado = 'cerrada'`). -/
def dbCerrada : DB :=
  { dbSample with
    solicitudes :=
      [ { id := 1, cliente_id := 5, titulo := "Boda", descripcion := "Musica para boda",
          tipo_musica := "jazz", cantidad_ofertas := 1, estado := "cerrada" } ] }

/-- Variant of `dbSample` with an additional artist (id 20) holding
zero credits. -/
def dbZero : DB :=
  { dbSample with
    usuarios :=
      dbSample.usuarios ++
        [ { id := 20, nombre := "ArtistaTres", email := "a3@x.cl",
            password := "bcrypt.a3", rol_id := 2, credits := 0 } ] }

/-- Empty database. -/
def dbEmpty : DB :=
  { usuarios := [], solicitudes := [], desbloqueos := [],
    desbloqueos_solicitudes := [], clientes := [] }

/-- Sample roles table. -/
def roles0 : List Rol :=
  [ { id := 1, nombre := "admin" },
    { id := 2, nombre := "artista" },
    { id := 3, nombre := "cliente" } ]

/-- Response user of a concrete artista registration. -/
def uRegAna : JsUser :=
  { id := 1, nombre := "Ana", email := "ana@x.cl", rol_id := 2,
    credits := some 3, password := none }

/-- Database after that registration. -/
def dbRegAna : DB :=
  { dbEmpty with
    usuarios :=
      [ { id := 1, nombre := "Ana", email := "ana@x.cl",
          password := "bcrypt.pw", rol_id := 2, credits := 3 } ] }

/-- Response user of a concrete cliente registration (part_000). -/
def uRegEva : JsUser :=
  { id := 1, nombre := "Eva", email := "eva@x.cl", rol_id := 3,
    credits := some 0, password := none }

/-- Database after that registration. -/
def dbRegEva : DB :=
  { dbEmpty with
    usuarios :=
      [ { id := 1, nombre := "Eva", email := "eva@x.cl",
          password := "bcrypt.pw", rol_id := 3, credits := 0 } ] }

/-- Response user of a concrete artista registration (part_001). -/
def uRegLia : JsUser :=
  { id := 1, nombre := "Lia", email := "lia@x.cl", rol_id := 2,
    credits := some 3, password := none }

/-- Database after that registration. -/
def dbRegLia : DB :=
  { dbEmpty with
    usuarios :=
      [ { id := 1, nombre := "Lia", email := "lia@x.cl",
          password := "bcrypt.pw", rol_id := 2, credits := 3 } ] }

/-- Response user of a concrete cliente registration (part_001, with a
telefono, so a `clientes` row is upserted). -/
def uRegBob : JsUser :=
  { id := 1, nombre := "Bob", email := "bob@x.cl", rol_id := 3,
    credits := some 0, password := none }

/-- Database after that registration. -/
def dbRegBob : DB :=
  { dbEmpty with
    usuarios :=
      [ { id := 1, nombre := "Bob", email := "bob@x.cl",
          password := "bcrypt.pw", rol_id := 3, credits := 0 } ],
    clientes := [ { id := 1, telefono := "123", direccion := "" } ] }

/-- Response users of concrete successful logins against `dbSample`. -/
def uLogA1 : JsUser :=
  { id := 10, nombre := "ArtistaUno", email := "a1@x.cl", rol_id := 2,
    credits := some 1, password := none }

/-- Response user of a concrete part_002 login against `dbSample`. -/
def uLogA2 : JsUser :=
  { id := 11, nombre := "ArtistaDos", email := "a2@x.cl", rol_id := 2,
    credits := some 1, password := none }

/-- Committed database after artist 10 unlocks resource 1 of
`dbSample`: one grant row, artist 10 debited to zero. -/
def dbAfterUnlock : DB :=
  { dbSample with
    usuarios :=
      [ { id := 5, nombre := "Cliente", email := "cliente@x.cl",
          password := "bcrypt.c", rol_id := 3, credits := 0 },
        { id := 10, nombre := "ArtistaUno", email := "a1@x.cl",
          password := "bcrypt.a1", rol_id := 2, credits := 0 },
        { id := 11, nombre := "ArtistaDos", email := "a2@x.cl",
          password := "bcrypt.a2", rol_id := 2, credits := 1 } ],
    desbloqueos := [ { solicitud_id := 1, artista_id := 10 } ] }

/-- Owner contact returned by part_000 for resource 1 of `dbSample`. -/
def contactoCliente : Contacto :=
  { nombre := "Cliente", email := "cliente@x.cl", telefono := none }

/-- The core invariant on the `usuarios` table: ids are unique (the
primary key) and every credit balance is nonnegative. -/
def InvDB (db : DB) : Prop :=
  (db.usuarios.map Usuario.id).Nodup ∧ ∀ u ∈ db.usuarios, 0 ≤ u.credits

/-- One incoming unlock request, against any of the three handler
variants. -/
inductive Call where
  | v0 (artista solicitud : Option Nat)
  | v1 (artista solicitud : Nat)
  | v2 (solicitud artista : Nat)
deriving Repr, DecidableEq

/-- The committed database after one request. -/
def applyCall (db : DB) (c : Call) : DB :=
  match c with
  | .v0 a s => (desbloquear0 db a s).1
  | .v1 a s => (desbloquear1 db a s).1
  | .v2 s a => (desbloquear2 db s a).1

/-- Sequential execution of a list of unlock requests (the row locks
serialize concurrent requests, so any interleaving commits in some
sequential order). -/
def runCalls (db : DB) (cs : List Call) : DB :=
  cs.foldl applyCall db

/-- One artist fires unlock requests (part_000 handler) against the
listed resources in order; returns the final database and the number
of 200 responses. -/
def runUnlocks0 (a : Nat) : DB → List Nat → DB × Nat
  | db, [] => (db, 0)
  | db, r :: rest =>
    let p := desbloquear0 db (some a) (some r)
    let q := runUnlocks0 a p.1 rest
    (q.1, (if p.2.isOk then 1 else 0) + q.2)

/-- C1: the unlock handlers enforce no quota.  In `dbSample` the
resource has quota 1, yet two unlock calls by distinct artists with
sufficient credit both succeed, leaving 2 grant rows — the claimed
invariant `count(Grants) ≤ quota` is violated, and of `quota + k`
calls all `quota + k` succeed rather than exactly `quota`.  Both the
part_000 and the part_001 handler exhibit this. -/
theorem c1_quota_not_enforced_eval :
    (desbloquear0 dbSample (some 10) (some 1)).2.isOk = true ∧
    (desbloquear0 ((desbloquear0 dbSample (some 10) (some 1)).1) (some 11) (some 1)).2.isOk = true ∧
    countDesbloqueos
      ((desbloquear0 ((desbloquear0 dbSample (some 10) (some 1)).1) (some 11) (some 1)).1).desbloqueos 1 = 2 ∧
    (findSolicitud dbSample.solicitudes 1).map Solicitud.cantidad_ofertas = some 1 ∧
    (desbloquear1 dbSample 10 1).2.isOk = true ∧
    (desbloquear1 ((desbloquear1 dbSample 10 1).1) 11 1).2.isOk = true ∧
    countDesbloqueos ((desbloquear1 ((desbloquear1 dbSample 10 1).1) 11 1).1).desbloqueos 1 = 2 := by
  decide

/-- C2: part_000 does roll back a failed debit (first conjunct: an
artist with zero credits changes nothing), but the part_002 handler
creates a Grant with no debit at all: artist 20 has zero credits, yet
its unlock inserts a grant row, reports success, and leaves every
balance untouched — so a Grant exists without any corresponding
debit. -/
theorem c2_grant_without_debit_eval :
    desbloquear0 dbZero (some 20) (some 1) =
      (dbZero, .badRequest ("No tienes creditos suficientes")) ∧
    (desbloquear2 dbZero 1 20).2 = Outcome2.ok ∧
    granted ((desbloquear2 dbZero 1 20).1).desbloqueos_solicitudes 20 1 = true ∧
    (findUsuario ((desbloquear2 dbZero 1 20).1).usuarios 20).map Usuario.credits = some 0 ∧
    ((desbloquear2 dbZero 1 20).1).usuarios = dbZero.usuarios := by
  decide

/-- C4: on a nonexistent actor (id 99), part_000's handler fails with
the dedicated 404 `ActorNotFound` response, but part_001's handler
dereferences `art.rows[0].credits` on an empty result, so the thrown
TypeError is caught and coerced into the generic 500
`"Error al desbloquear"` — not `ActorNotFound` (state is still left
unchanged). -/
theorem c4_actor_not_found_eval :
    desbloquear0 dbSample (some 99) (some 1) =
      (dbSample, .notFound ("Artista no encontrado")) ∧
    desbloquear1 dbSample 99 1 =
      (dbSample, .serverError ("Error al desbloquear")) := by
  decide

/-- C5: the part_002 handler has no idempotency guard: two identical
unlock calls for the same (actor, resource) pair both report success
and leave two grant rows (and, this variant never debiting, zero
debits) instead of one grant, one debit, and an `AlreadyGranted`
rejection of the second call. -/
theorem c5_no_idempotency_guard_eval :
    (desbloquear2 ((desbloquear2 dbSample 1 10).1) 1 10).2 = Outcome2.ok ∧
    (((desbloquear2 ((desbloquear2 dbSample 1 10).1) 1 10).1).desbloqueos_solicitudes.filter
        (fun d => d.artista_id == 10 && d.solicitud_id == 1)).length = 2 ∧
    (findUsuario ((desbloquear2 ((desbloquear2 dbSample 1 10).1) 1 10).1).usuarios 10).map
        Usuario.credits = some 1 := by
  decide

/-- C6: no handler ever closes a resource.  A successful unlock that
raises the grant count of the quota-1 resource to its quota leaves
`estado = 'abierta'`, and a further unlock by another artist succeeds
as well — the open→closed transition never happens and closure is
never enforced. -/
theorem c6_no_close_transition_eval :
    (desbloquear1 dbSample 10 1).2.isOk = true ∧
    countDesbloqueos ((desbloquear1 dbSample 10 1).1).desbloqueos 1 = 1 ∧
    (findSolicitud dbSample.solicitudes 1).map Solicitud.cantidad_ofertas = some 1 ∧
    (findSolicitud ((desbloquear1 dbSample 10 1).1).solicitudes 1).map Solicitud.estado =
      some ("abierta") ∧
    (desbloquear1 ((desbloquear1 dbSample 10 1).1) 11 1).2.isOk = true := by
  decide

/-- C7: neither unlock handler checks `estado`.  On a resource whose
state is `'cerrada'`, both the part_000 and the part_001 handler
succeed — a grant row is inserted and a credit debited — instead of
failing with `ResourceClosed` before any effect. -/
theorem c7_closed_not_checked_eval :
    (desbloquear0 dbCerrada (some 10) (some 1)).2.isOk = true ∧
    countDesbloqueos ((desbloquear0 dbCerrada (some 10) (some 1)).1).desbloqueos 1 = 1 ∧
    (findUsuario ((desbloquear0 dbCerrada (some 10) (some 1)).1).usuarios 10).map
        Usuario.credits = some 0 ∧
    (desbloquear1 dbCerrada 10 1).2.isOk = true ∧
    countDesbloqueos ((desbloquear1 dbCerrada 10 1).1).desbloqueos 1 = 1 := by
  decide

/-- C8, counterexample: a successful unlock through the part_001
handler returns `{ ok, nuevosCreditos }` with no contact whatsoever
(`none`), even though the resource and its owner exist and the owner's
contact data is available in the database (second conjunct evaluates
part_000's contact query on the post-call state). -/
theorem c8_counterexample_no_contact :
    (desbloquear1 dbSample 10 1).2 = Outcome.ok 0 none ∧
    contactoDe (desbloquear1 dbSample 10 1).1 1 =
      some { nombre := "Cliente", email := "cliente@x.cl", telefono := none } := by
  decide

/-- C10: no success response of the login and register handlers
carries the stored password hash: whenever part_000's login, part_002's
login, part_000's register or part_001's register answers 200 with a
`user` object, that object has no `password` field (part_000's
`RETURNING` list omits the column; the logins run
`delete user.password`). -/
theorem c10_no_password_in_auth_responses :
    (∀ (db : DB) (email password : String) (u : JsUser) (t : String),
        login0 db email password = .okAuth u t → u.password = none) ∧
    (∀ (db : DB) (email password : String) (u : JsUser) (t : String),
        login2 db email password = .okAuth u t → u.password = none) ∧
    (∀ (db : DB) (roles : List Rol) (nombre email password : String) (role : Option String)
        (db2 : DB) (u : JsUser) (t : String),
        register0 db roles nombre email password role = (db2, .okAuth u t) →
        u.password = none) ∧
    (∀ (db : DB) (roles : List Rol) (nombre email password : String)
        (role telefono : Option String) (db2 : DB) (u : JsUser) (t : String),
        register1 db roles nombre email password role telefono = (db2, .okAuth u t) →
        u.password = none) := by
  refine ⟨?_, ?_, ?_, ?_⟩
  · intro db email password u t h
    unfold login0 at h
    split at h
    · simp at h
    · split at h
      · simp only [AuthResult.okAuth.injEq] at h
        obtain ⟨h1, -⟩ := h
        subst h1
        rfl
      · simp at h
  · intro db email password u t h
    unfold login2 at h
    split at h
    · simp at h
    · split at h
      · simp only [AuthResult.okAuth.injEq] at h
        obtain ⟨h1, -⟩ := h
        subst h1
        rfl
      · simp at h
  · intro db roles nombre email password role db2 u t h
    unfold register0 at h
    split at h
    · simp at h
    · split at h
      · simp at h
      · simp only [Prod.mk.injEq, AuthResult.okAuth.injEq] at h
        obtain ⟨-, h1, -⟩ := h
        subst h1
        rfl
  · intro db roles nombre email password role telefono db2 u t h
    unfold register1 at h
    split at h
    · simp at h
    · split at h
      · simp at h
      · simp only [Prod.mk.injEq, AuthResult.okAuth.injEq] at h
        obtain ⟨-, h1, -⟩ := h
        subst h1
        rfl

/-- C9: both register handlers compute `initialCredits` as 3 exactly
when the requested role string is `"artista"` and 0 for every other
role (including the defaulted `"cliente"`), and store and return that
balance: on success with role `"artista"` the response user and the
inserted row carry 3 credits; with any other role, 0 credits. -/
theorem c9_initial_credits_by_role :
    (∀ (db : DB) (roles : List Rol) (nombre email password : String)
        (db2 : DB) (u : JsUser) (t : String),
        register0 db roles nombre email password (some ("artista")) = (db2, .okAuth u t) →
        u.credits = some 3 ∧ ∃ w ∈ db2.usuarios, w.email = email ∧ w.credits = 3) ∧
    (∀ (db : DB) (roles : List Rol) (nombre email password : String) (role : Option String)
        (db2 : DB) (u : JsUser) (t : String),
        role ≠ some ("artista") →
        register0 db roles nombre email password role = (db2, .okAuth u t) →
        u.credits = some 0 ∧ ∃ w ∈ db2.usuarios, w.email = email ∧ w.credits = 0) ∧
    (∀ (db : DB) (roles : List Rol) (nombre email password : String) (telefono : Option String)
        (db2 : DB) (u : JsUser) (t : String),
        register1 db roles nombre email password (some ("artista")) telefono = (db2, .okAuth u t) →
        u.credits = some 3) ∧
    (∀ (db : DB) (roles : List Rol) (nombre email password : String)
        (role telefono : Option String) (db2 : DB) (u : JsUser) (t : String),
        role ≠ some ("artista") →
        register1 db roles nombre email password role telefono = (db2, .okAuth u t) →
        u.credits = some 0) := by
  refine ⟨?_, ?_, ?_, ?_⟩
  · intro db roles nombre email password db2 u t h
    unfold register0 at h
    split at h
    · simp at h
    · split at h
      · simp at h
      · simp only [Prod.mk.injEq, AuthResult.okAuth.injEq] at h
        obtain ⟨hdb, hu, -⟩ := h
        subst hdb; subst hu
        exact ⟨rfl, _, List.mem_append_right _ (List.mem_singleton_self _), rfl, rfl⟩
  · intro db roles nombre email password role db2 u t hr h
    rcases role with _ | r
    · unfold register0 at h
      split at h
      · simp at h
      · split at h
        · simp at h
        · simp only [Prod.mk.injEq, AuthResult.okAuth.injEq] at h
          obtain ⟨hdb, hu, -⟩ := h
          subst hdb; subst hu
          exact ⟨rfl, _, List.mem_append_right _ (List.mem_singleton_self _), rfl, rfl⟩
    · have hr2 : r ≠ "artista" := fun hh => hr (by rw [hh])
      have hfin : ¬(if r = "" then "cliente" else r) = "artista" := by
        by_cases hre : r = ""
        · subst hre; decide
        · simpa [hre] using hr2
      unfold register0 at h
      split at h
      · simp at h
      · split at h
        · simp at h
        · simp only [Prod.mk.injEq, AuthResult.okAuth.injEq] at h
          obtain ⟨hdb, hu, -⟩ := h
          subst hdb; subst hu
          constructor
          · simp [hfin]
          · exact ⟨_, List.mem_append_right _ (List.mem_singleton_self _), rfl, by simp [hfin]⟩
  · intro db roles nombre email password telefono db2 u t h
    unfold register1 at h
    split at h
    · simp at h
    · split at h
      · simp at h
      · simp only [Prod.mk.injEq, AuthResult.okAuth.injEq] at h
        obtain ⟨-, hu, -⟩ := h
        subst hu
        rfl
  · intro db roles nombre email password role telefono db2 u t hr h
    rcases role with _ | r
    · unfold register1 at h
      split at h
      · simp at h
      · split at h
        · simp at h
        · simp only [Prod.mk.injEq, AuthResult.okAuth.injEq] at h
          obtain ⟨-, hu, -⟩ := h
          subst hu
          rfl
    · have hr2 : r ≠ "artista" := fun hh => hr (by rw [hh])
      have hfin : ¬(if r = "" then "cliente" else r) = "artista" := by
        by_cases hre : r = ""
        · subst hre; decide
        · simpa [hre] using hr2
      unfold register1 at h
      split at h
      · simp at h
      · split at h
        · simp at h
        · simp only [Prod.mk.injEq, AuthResult.okAuth.injEq] at h
          obtain ⟨-, hu, -⟩ := h
          subst hu
          simp [hfin]

/-- Witness for C9 at concrete inputs: registering Ana and Lia as
artistas yields 3 credits; Eva and Bob with role cliente yield 0. -/
theorem c9_witness :
    (uRegAna.credits = some 3 ∧ ∃ w ∈ dbRegAna.usuarios, w.email = "ana@x.cl" ∧ w.credits = 3) ∧
    (uRegEva.credits = some 0 ∧ ∃ w ∈ dbRegEva.usuarios, w.email = "eva@x.cl" ∧ w.credits = 0) ∧
    uRegLia.credits = some 3 ∧
    uRegBob.credits = some 0 :=
  ⟨c9_initial_credits_by_role.1 dbEmpty roles0 ("Ana") ("ana@x.cl") ("pw")
      dbRegAna uRegAna ("jwt.1.2") (by decide),
   c9_initial_credits_by_role.2.1 dbEmpty roles0 ("Eva") ("eva@x.cl") ("pw")
      (some ("cliente")) dbRegEva uRegEva ("jwt.1.3") (by decide) (by decide),
   c9_initial_credits_by_role.2.2.1 dbEmpty roles0 ("Lia") ("lia@x.cl") ("pw")
      none dbRegLia uRegLia ("jwt.1.2") (by decide),
   c9_initial_credits_by_role.2.2.2 dbEmpty roles0 ("Bob") ("bob@x.cl") ("pw")
      (some ("cliente")) (some ("123")) dbRegBob uRegBob ("jwt.1.3") (by decide) (by decide)⟩

/-- Witness for C10 at concrete inputs: two successful logins and two
successful registrations, none of whose response users carries a
password field. -/
theorem c10_witness :
    uLogA1.password = none ∧ uLogA2.password = none ∧
    uRegAna.password = none ∧ uRegBob.password = none :=
  ⟨c10_no_password_in_auth_responses.1 dbSample ("a1@x.cl") ("a1")
      uLogA1 ("jwt.10.2") (by decide),
   c10_no_password_in_auth_responses.2.1 dbSample ("a2@x.cl") ("a2")
      uLogA2 ("jwt.11.2") (by decide),
   c10_no_password_in_auth_responses.2.2.1 dbEmpty roles0 ("Ana") ("ana@x.cl") ("pw")
      (some ("artista")) dbRegAna uRegAna ("jwt.1.2") (by decide),
   c10_no_password_in_auth_responses.2.2.2 dbEmpty roles0 ("Bob") ("bob@x.cl") ("pw")
      (some ("cliente")) (some ("123")) dbRegBob uRegBob ("jwt.1.3") (by decide)⟩

/-- Row lookup by id commutes with a row update that leaves ids
unchanged. -/
theorem findUsuario_map (f : Usuario → Usuario) (hf : ∀ u, (f u).id = u.id)
    (l : List Usuario) (a : Nat) :
    findUsuario (l.map f) a = (findUsuario l a).map f := by
  induction l with
  | nil => rfl
  | cons x xs ih =>
    by_cases hx : (x.id == a) = true
    · have hfx : ((f x).id == a) = true := by rw [hf]; exact hx
      simp only [findUsuario, List.map_cons] at *
      rw [@List.find?_cons_of_pos _ (fun u => u.id == a) (f x) (List.map f xs) hfx,
        @List.find?_cons_of_pos _ (fun u => u.id == a) x xs hx]
      simp
    · have hfx : ¬((f x).id == a) = true := by rw [hf]; exact hx
      simp only [findUsuario, List.map_cons] at *
      rw [@List.find?_cons_of_neg _ (fun u => u.id == a) (f x) (List.map f xs) hfx,
        @List.find?_cons_of_neg _ (fun u => u.id == a) x xs hx, ih]

/-- C8, amended: a successful unlock returns the actor's post-debit
balance in both variants; part_000 additionally returns the owner
contact computed by `contactoDe` on the committed state (null when the
resource or its owner is absent), while part_001 returns no contact at
all. -/
theorem c8_amended_unlock_response :
    (∀ (db : DB) (a s : Nat) (db2 : DB) (n : Int) (c : Option Contacto),
        desbloquear0 db (some a) (some s) = (db2, .ok n c) →
        (findUsuario db2.usuarios a).map Usuario.credits = some n ∧ c = contactoDe db2 s) ∧
    (∀ (db : DB) (a s : Nat) (db2 : DB) (n : Int) (c : Option Contacto),
        desbloquear1 db a s = (db2, .ok n c) →
        (findUsuario db2.usuarios a).map Usuario.credits = some n ∧ c = none) := by
  constructor
  · intro db a s db2 n c h
    simp only [desbloquear0] at h
    split at h
    · simp at h
    · split at h
      · simp at h
      · split at h
        · simp at h
        · next u heq =>
          split at h
          · simp at h
          · next hc =>
            simp only [Prod.mk.injEq, Outcome.ok.injEq] at h
            obtain ⟨hdb, hn, hcon⟩ := h
            subst hdb; subst hn; subst hcon
            refine ⟨?_, rfl⟩
            have hf : ∀ v : Usuario,
                ((if v.id == a then { v with credits := v.credits - 1 } else v) : Usuario).id
                  = v.id := by
              intro v; by_cases hv : (v.id == a) = true <;> simp [hv]
            have heq2 : db.usuarios.find? (fun v => v.id == a) = some u := heq
            have hpa : (u.id == a) = true :=
              @List.find?_some _ (fun v => v.id == a) u db.usuarios heq2
            simp only [debitOne]
            have hpa2 : u.id = a := by simpa using hpa
            rw [findUsuario_map _ hf, heq]
            simp [hpa2]
  · intro db a s db2 n c h
    simp only [desbloquear1] at h
    split at h
    · simp at h
    · split at h
      · simp at h
      · split at h
        · simp at h
        · next u heq =>
          split at h
          · simp at h
          · next hc =>
            simp only [Prod.mk.injEq, Outcome.ok.injEq] at h
            obtain ⟨hdb, hn, hcon⟩ := h
            subst hdb; subst hn; subst hcon
            refine ⟨?_, rfl⟩
            have hf : ∀ v : Usuario,
                ((if v.id == a then { v with credits := u.credits - 1 } else v) : Usuario).id
                  = v.id := by
              intro v; by_cases hv : (v.id == a) = true <;> simp [hv]
            have heq2 : db.usuarios.find? (fun v => v.id == a) = some u := heq
            have hpa : (u.id == a) = true :=
              @List.find?_some _ (fun v => v.id == a) u db.usuarios heq2
            simp only [setCredits]
            have hpa2 : u.id = a := by simpa using hpa
            rw [findUsuario_map _ hf, heq]
            simp [hpa2]

/-- Witness for the amended C8 at a concrete successful unlock of each
variant. -/
theorem c8_amended_witness :
    ((findUsuario dbAfterUnlock.usuarios 10).map Usuario.credits = some 0 ∧
      (some contactoCliente : Option Contacto) = contactoDe dbAfterUnlock 1) ∧
    ((findUsuario dbAfterUnlock.usuarios 10).map Usuario.credits = some 0 ∧
      (none : Option Contacto) = none) :=
  ⟨c8_amended_unlock_response.1 dbSample 10 1 dbAfterUnlock 0
      (some contactoCliente) (by decide),
   c8_amended_unlock_response.2 dbSample 10 1 dbAfterUnlock 0 none (by decide)⟩

/-- A row update that never touches ids leaves the table's id column
unchanged. -/
theorem map_id_of_preserve (f : Usuario → Usuario) (hf : ∀ u, (f u).id = u.id)
    (l : List Usuario) : (l.map f).map Usuario.id = l.map Usuario.id := by
  induction l with
  | nil => rfl
  | cons x xs ih => simp [hf, ih]

/-- Rewriting the credits of the (unique, by `Nodup` ids) row found by
an id lookup to a nonnegative value keeps every balance
nonnegative. -/
theorem update_keeps_nonneg (l : List Usuario) (a : Nat) (u : Usuario)
    (g : Usuario → Usuario)
    (hnd : (l.map Usuario.id).Nodup)
    (hfind : l.find? (fun v => v.id == a) = some u)
    (hg : 0 ≤ (g u).credits)
    (hall : ∀ v ∈ l, 0 ≤ v.credits) :
    ∀ v ∈ l.map (fun w => if w.id == a then g w else w), 0 ≤ v.credits := by
  intro v hv
  rcases List.mem_map.mp hv with ⟨w, hw, rfl⟩
  by_cases hwa : (w.id == a) = true
  · have hua : (u.id == a) = true := @List.find?_some _ (fun v => v.id == a) u l hfind
    have humem : u ∈ l := @List.mem_of_find?_eq_some _ (fun v => v.id == a) u l hfind
    have hid : w.id = u.id := by
      have h1 : w.id = a := by simpa using hwa
      have h2 : u.id = a := by simpa using hua
      rw [h1, h2]
    have hwu : w = u := List.inj_on_of_nodup_map hnd hw humem hid
    subst hwu
    simpa [hwa] using hg
  · simpa [hwa] using hall w hw

/-- Part_000's unlock handler preserves the invariant: every failure
path rolls back, and the success path debits only the looked-up row,
whose balance was checked positive. -/
theorem invDB_desbloquear0 (db : DB) (oa os : Option Nat) (h : InvDB db) :
    InvDB (desbloquear0 db oa os).1 := by
  obtain ⟨hnd, hall⟩ := h
  rcases oa with _ | a
  · exact ⟨hnd, hall⟩
  rcases os with _ | s
  · exact ⟨hnd, hall⟩
  simp only [desbloquear0]
  split
  · exact ⟨hnd, hall⟩
  split
  · exact ⟨hnd, hall⟩
  split
  · exact ⟨hnd, hall⟩
  next u heq =>
    split
    · exact ⟨hnd, hall⟩
    next hc =>
      have heq2 : db.usuarios.find? (fun v => v.id == a) = some u := heq
      have hfpres : ∀ v : Usuario,
          ((if v.id == a then { v with credits := v.credits - 1 } else v) : Usuario).id
            = v.id := by
        intro v; by_cases hv : (v.id == a) = true <;> simp [hv]
      constructor
      · simp only [debitOne]
        rw [map_id_of_preserve _ hfpres]
        exact hnd
      · intro v hv
        refine update_keeps_nonneg db.usuarios a u
          (fun w => { w with credits := w.credits - 1 }) hnd heq2 ?_ hall v ?_
        · simp only []
          omega
        · simpa [debitOne] using hv

/-- Part_001's unlock handler preserves the invariant (the missing
actor-row check only produces a rolled-back 500, so it cannot break
it). -/
theorem invDB_desbloquear1 (db : DB) (a s : Nat) (h : InvDB db) :
    InvDB (desbloquear1 db a s).1 := by
  obtain ⟨hnd, hall⟩ := h
  simp only [desbloquear1]
  split
  · exact ⟨hnd, hall⟩
  split
  · exact ⟨hnd, hall⟩
  split
  · exact ⟨hnd, hall⟩
  next u heq =>
    split
    · exact ⟨hnd, hall⟩
    next hc =>
      have heq2 : db.usuarios.find? (fun v => v.id == a) = some u := heq
      have hfpres : ∀ v : Usuario,
          ((if v.id == a then { v with credits := u.credits - 1 } else v) : Usuario).id
            = v.id := by
        intro v; by_cases hv : (v.id == a) = true <;> simp [hv]
      constructor
      · simp only [setCredits]
        rw [map_id_of_preserve _ hfpres]
        exact hnd
      · intro v hv
        refine update_keeps_nonneg db.usuarios a u
          (fun w => { w with credits := u.credits - 1 }) hnd heq2 ?_ hall v ?_
        · simp only []
          omega
        · simpa [setCredits] using hv

/-- Part_002's unlock handler never touches `usuarios`, so it
preserves the invariant trivially. -/
theorem invDB_desbloquear2 (db : DB) (s a : Nat) (h : InvDB db) :
    InvDB (desbloquear2 db s a).1 :=
  h

/-- The invariant holds in every state reachable by unlock calls. -/
theorem invDB_runCalls (cs : List Call) : ∀ db, InvDB db → InvDB (runCalls db cs) := by
  induction cs with
  | nil => intro db h; exact h
  | cons c cs ih =>
    intro db h
    have h1 : InvDB (applyCall db c) := by
      cases c with
      | v0 a s => exact invDB_desbloquear0 db a s h
      | v1 a s => exact invDB_desbloquear1 db a s h
      | v2 s a => exact invDB_desbloquear2 db s a h
    simpa [runCalls, List.foldl_cons] using ih (applyCall db c) h1

/-- Evaluation of part_000's unlock handler on the insufficient-credits
path. -/
theorem desbloquear0_insufficient (db : DB) (a s : Nat) (u : Usuario)
    (hA : (a == 0) = false) (hS : (s == 0) = false)
    (hg : granted db.desbloqueos a s = false)
    (hu : findUsuario db.usuarios a = some u) (hc : u.credits ≤ 0) :
    desbloquear0 db (some a) (some s) =
      (db, .badRequest ("No tienes creditos suficientes")) := by
  simp [desbloquear0, hA, hS, hg, hu, hc]

/-- Evaluation of part_000's unlock handler on the commit path. -/
theorem desbloquear0_commit (db : DB) (a s : Nat) (u : Usuario)
    (hA : (a == 0) = false) (hS : (s == 0) = false)
    (hg : granted db.desbloqueos a s = false)
    (hu : findUsuario db.usuarios a = some u) (hc : ¬(u.credits ≤ 0)) :
    desbloquear0 db (some a) (some s) =
      ({ db with
         desbloqueos := db.desbloqueos ++ [{ solicitud_id := s, artista_id := a }],
         usuarios := debitOne db.usuarios a },
       .ok (u.credits - 1)
         (contactoDe
           { db with
             desbloqueos := db.desbloqueos ++ [{ solicitud_id := s, artista_id := a }],
             usuarios := debitOne db.usuarios a } s)) := by
  simp [desbloquear0, hA, hS, hg, hu, hc]

/-- Of a run of part_000 unlock calls by one artist against distinct,
never-granted resources, exactly `min balance (number of calls)`
succeed: each success debits one credit and the handler stops
succeeding exactly when the balance hits zero. -/
theorem runUnlocks0_count (a : Nat) (ha : a ≠ 0) :
    ∀ (rs : List Nat) (db : DB) (b : Nat),
      (findUsuario db.usuarios a).map Usuario.credits = some (b : Int) →
      rs.Nodup →
      (∀ r ∈ rs, r ≠ 0) →
      (∀ r ∈ rs, granted db.desbloqueos a r = false) →
      (runUnlocks0 a db rs).2 = min b rs.length := by
  have hA : (a == 0) = false := by simpa using ha
  intro rs
  induction rs with
  | nil =>
    intro db b hb hnd hnz hng
    simp [runUnlocks0]
  | cons r rest ih =>
    intro db b hb hnd hnz hng
    obtain ⟨u, hu, huc⟩ := Option.map_eq_some'.mp hb
    have hS : (r == 0) = false := by simpa using hnz r (List.mem_cons_self r rest)
    have hgr : granted db.desbloqueos a r = false := hng r (List.mem_cons_self r rest)
    have hndrest : rest.Nodup := (List.nodup_cons.mp hnd).2
    have hrnotin : r ∉ rest := (List.nodup_cons.mp hnd).1
    rcases Nat.eq_zero_or_pos b with hb0 | hbpos
    · subst hb0
      have hc : u.credits ≤ 0 := by rw [huc]; exact le_refl 0
      have hstep := desbloquear0_insufficient db a r u hA hS hgr hu hc
      have hrest := ih db 0 hb hndrest
        (fun x hx => hnz x (List.mem_cons_of_mem r hx))
        (fun x hx => hng x (List.mem_cons_of_mem r hx))
      simp only [runUnlocks0, hstep, Outcome.isOk, hrest]
      simp
    · have hc : ¬(u.credits ≤ 0) := by rw [huc]; omega
      have hstep := desbloquear0_commit db a r u hA hS hgr hu hc
      have hfpres : ∀ v : Usuario,
          ((if v.id == a then { v with credits := v.credits - 1 } else v) : Usuario).id
            = v.id := by
        intro v; by_cases hv : (v.id == a) = true <;> simp [hv]
      have hu2 : db.usuarios.find? (fun v => v.id == a) = some u := hu
      have hpa : (u.id == a) = true := @List.find?_some _ (fun v => v.id == a) u db.usuarios hu2
      have hpa2 : u.id = a := by simpa using hpa
      have hcast : ((b - 1 : Nat) : Int) = (b : Int) - 1 := by omega
      have hb2 :
          (findUsuario
            (debitOne db.usuarios a) a).map Usuario.credits = some ((b - 1 : Nat) : Int) := by
        simp only [debitOne]
        rw [findUsuario_map _ hfpres, hu]
        simp [hpa2, huc, hcast]
      have hng2 : ∀ x ∈ rest,
          granted (db.desbloqueos ++ [{ solicitud_id := r, artista_id := a }]) a x = false := by
        intro x hx
        have hbase : granted db.desbloqueos a x = false := hng x (List.mem_cons_of_mem r hx)
        have hrx : (r == x) = false := by
          have : r ≠ x := fun he => hrnotin (he ▸ hx)
          simpa using this
        simp [granted, List.any_append, hrx]
        simpa [granted] using hbase
      have hrest := ih
        ({ db with
           desbloqueos := db.desbloqueos ++ [{ solicitud_id := r, artista_id := a }],
           usuarios := debitOne db.usuarios a }) (b - 1) hb2 hndrest
        (fun x hx => hnz x (List.mem_cons_of_mem r hx)) hng2
      simp only [runUnlocks0, hstep, Outcome.isOk, hrest]
      simp only [List.length_cons, if_true]
      omega

/-- C3: credit balances never go negative — the invariant (unique ids,
all balances ≥ 0) holds in every state reachable by any sequence of
unlock calls through any handler variant — and an artist holding
balance `b` who unlocks `b + k` distinct fresh resources succeeds
exactly `b` times. -/
theorem c3_balance_never_negative :
    (∀ (db : DB) (cs : List Call), InvDB db → InvDB (runCalls db cs)) ∧
    (∀ (db : DB) (a b k : Nat) (rs : List Nat),
        a ≠ 0 →
        (findUsuario db.usuarios a).map Usuario.credits = some (b : Int) →
        rs.Nodup →
        (∀ r ∈ rs, r ≠ 0) →
        (∀ r ∈ rs, granted db.desbloqueos a r = false) →
        rs.length = b + k →
        (runUnlocks0 a db rs).2 = b) :=
  ⟨fun db cs h => invDB_runCalls cs db h,
   fun db a b k rs ha hb hnd hnz hng hlen => by
     rw [runUnlocks0_count a ha rs db b hb hnd hnz hng, hlen]
     omega⟩

/-- Witness for C3: the invariant survives a concrete burst of calls
against `dbSample`, and artist 10, holding 1 credit, succeeds exactly
once against the two distinct resources 1 and 2. -/
theorem c3_witness :
    InvDB (runCalls dbSample
      [Call.v0 (some 10) (some 1), Call.v1 11 1, Call.v2 1 10]) ∧
    (runUnlocks0 10 dbSample [1, 2]).2 = 1 :=
  ⟨c3_balance_never_negative.1 dbSample
      [Call.v0 (some 10) (some 1), Call.v1 11 1, Call.v2 1 10]
      ⟨by decide, by decide⟩,
   c3_balance_never_negative.2 dbSample 10 1 1 [1, 2] (by decide) (by decide)
      (by decide) (by decide) (by decide) (by decide)⟩
